import Mathlib

/-!
Shallow embedding of `pkg/util/tracing/tracer.go` (CockroachDB tracing core).

The Go file implements a custom opentracing `Tracer`: conditional span
materialization (`StartSpan`), the wire-format propagation codec
(`Inject`/`Extract`), and the process-wide tracer registry.

Modelling conventions:
- `uint64` values are `Nat` (side conditions `< 2 ^ 64` are stated where a
  theorem needs the machine width);
- Go maps (`map[string]string`) are association lists whose `Set` operation
  (`mapSet`) overwrites the entry for an existing key;
- a text-map carrier is the list of its key/value entries, together with
  capability flags standing for the Go interface casts `TextMapReader` /
  `TextMapWriter`;
- nondeterministic inputs (`rand.Int63`, `time.Now`, `new(spanGroup)`, the
  shadow span opened by the shadow tracer) are passed explicitly in a
  `Fresh` record;
- the global cluster setting `trace.debug.enable` (`enableNetTrace.Get()`)
  is a boolean field `netTrace` of the `Tracer` model;
- `panic` is modelled by `Option`/`none` results;
- Go string case folding (`strings.ToLower`) is modelled on the ASCII
  fragment, which covers the reserved key namespace of the codec.
-/

namespace Tracing

/-! ## String helpers (ASCII fragment of the Go `strings` functions used) -/

/-- ASCII lower-casing of one character (fragment of Go `strings.ToLower`). -/
def charToLower (c : Char) : Char :=
  if 'A' ≤ c ∧ c ≤ 'Z' then Char.ofNat (c.toNat + 32) else c

/-- `strings.ToLower` on the ASCII fragment. -/
def strToLower (s : String) : String :=
  String.mk (s.data.map charToLower)

/-- Go `strings.HasPrefix p s` (here: does `s` start with `p`). -/
def startsWithStr (p s : String) : Bool :=
  p.data.isPrefixOf s.data

/-- Go `strings.TrimPrefix`: drop the leading `p` from `s` if present. -/
def trimPreStr (p s : String) : String :=
  if startsWithStr p s then String.mk (s.data.drop p.data.length) else s

/-- Go map assignment `m[k] = v` on an association-list representation:
any existing entry for `k` is replaced, otherwise the entry is appended. -/
def mapSet (m : List (String × String)) (k v : String) : List (String × String) :=
  m.filter (fun q => q.1 ≠ k) ++ [(k, v)]

/-- Go map read `m[k]` with the zero value `""` for a missing key. -/
def mapGet (m : List (String × String)) (k : String) : String :=
  (m.lookup k).getD ""

/-! ## Hexadecimal formatting and parsing
(`strconv.FormatUint(x, 16)` and `strconv.ParseUint(v, 16, 64)`) -/

/-- Numeric value of one hexadecimal digit (either case), as accepted by
`strconv.ParseUint` with base 16. -/
def hexDigitVal (c : Char) : Option Nat :=
  if '0' ≤ c ∧ c ≤ '9' then some (c.toNat - '0'.toNat)
  else if 'a' ≤ c ∧ c ≤ 'f' then some (c.toNat - 'a'.toNat + 10)
  else if 'A' ≤ c ∧ c ≤ 'F' then some (c.toNat - 'A'.toNat + 10)
  else none

/-- Lowercase hexadecimal digit for a value `< 16`, as produced by
`strconv.FormatUint` with base 16. -/
def hexDigitChar (n : Nat) : Char :=
  if n < 10 then Char.ofNat ('0'.toNat + n) else Char.ofNat ('a'.toNat + n - 10)

/-- Digit accumulator of `strconv.ParseUint` base 16: fold the digits left to
right, failing on any non-hex character. -/
def parseHexCore : List Char → Nat → Option Nat
  | [], acc => some acc
  | c :: cs, acc =>
    match hexDigitVal c with
    | some d => parseHexCore cs (acc * 16 + d)
    | none => none

/-- `strconv.ParseUint(v, 16, 64)`: a nonempty all-hex-digit string whose
value fits in 64 bits; any failure (empty input, bad digit, overflow =
`ErrRange`) is `none` (a non-nil Go error). -/
def parseUint16 (s : String) : Option Nat :=
  match s.data with
  | [] => none
  | c :: cs =>
    match parseHexCore (c :: cs) 0 with
    | some n => if n < 2 ^ 64 then some n else none
    | none => none

/-- Hex digits of `n`, most significant first; `fuel` bounds the recursion
depth (any `fuel` with `n < 16 ^ fuel` is exact). -/
def toHexAux : Nat → Nat → List Char
  | 0, _ => []
  | fuel + 1, n =>
    if n < 16 then [hexDigitChar n]
    else toHexAux fuel (n / 16) ++ [hexDigitChar (n % 16)]

/-- `strconv.FormatUint(n, 16)`: lowercase hexadecimal rendering of `n`. -/
def formatUint16 (n : Nat) : String :=
  String.mk (toHexAux (n + 1) n)

/-! ## Constants of the wire format (tracer.go lines 42-61) -/

/-- Reserved baggage key that marks snowball traces (`Snowball = "sb"`). -/
def Snowball : String := "sb"

def prefixTracerState : String := "crdb-tracer-"

def prefixBaggage : String := "crdb-baggage-"

def prefixShadow : String := "crdb-shadow-"

def fieldNameTraceID : String := prefixTracerState ++ "traceid"

def fieldNameSpanID : String := prefixTracerState ++ "spanid"

def fieldNameShadowType : String := prefixTracerState ++ "shadowtype"

/-! ## Data model -/

/-- Recording kinds. Modelled from the spec: the `RecordingType` enumeration
lives in span.go (not under src/); §4.2 gives the kinds
`{Explicit, Snowball}` plus the not-recording zero value. -/
inductive RecordingType
  | NoRecording
  | SnowballRecording
  | ExplicitRecording
deriving DecidableEq

/-- Errors surfaced by the propagation codec (the `opentracing.Err...`
values returned by Inject/Extract); `shadowErr` stands for an error coming
out of the shadow tracer's own codec. -/
inductive OTErr
  | UnsupportedFormat
  | InvalidCarrier
  | InvalidSpanContext
  | SpanContextCorrupted
  | shadowErr (n : Nat)
deriving DecidableEq

/-- The `format` argument of Inject/Extract. `other` covers every value that
is neither `opentracing.HTTPHeaders` nor `opentracing.TextMap` (e.g.
`Binary`). -/
inductive Format
  | HTTPHeaders
  | TextMap
  | other (n : Nat)
deriving DecidableEq

/-- `opentracing.SpanReferenceType`; `otherRef` covers any further value of
the underlying integer type. -/
inductive RefType
  | ChildOfRef
  | FollowsFromRef
  | otherRef (n : Nat)
deriving DecidableEq

/-- The shadow-tracer capability attached to a `Tracer` or cached inside a
span context: its type tag (`Typ()`), an identity, and its own Inject /
Extract behaviour (opaque external code, represented as functions; a shadow
span context is represented by a `Nat`). -/
structure ShadowTracer where
  id : Nat
  typ : String
  injectFn : Nat → Format → Except OTErr (List (String × String))
  extractFn : Format → List (String × String) → Except OTErr Nat

/-- The concrete `*spanContext` of the package: trace/span ids, baggage, the
cached shadow tracer and its native context, and the recording state used to
propagate recording to children. Fields are exactly the ones tracer.go
reads and writes. -/
structure spanContext where
  traceID : Nat
  spanID : Nat
  baggage : List (String × String)
  shadowTr : Option ShadowTracer
  shadowCtx : Option Nat
  recordingGroup : Option Nat
  recordingType : RecordingType

/-- An `opentracing.SpanContext` value as seen through the interface:
the package's `noopSpanContext`, the package's `*spanContext`, or a context
of some foreign tracer (any other dynamic type). -/
inductive OTSpanContext
  | noop
  | real (sc : spanContext)
  | foreign (n : Nat)

/-- A text-map carrier: its entries plus the capability flags corresponding
to the Go interface casts to `TextMapReader` / `TextMapWriter`. -/
structure Carrier where
  canRead : Bool
  canWrite : Bool
  entries : List (String × String)

/-- The `Tracer` state that `StartSpan`/`Extract` consult: the value of the
global `trace.debug.enable` setting at the time of the call (`netTrace`),
the current contents of the atomic `shadowTracer` pointer, and the
`forceRealSpans` test flag. The preallocated `noopSpan` is represented by
the `SpanResult.noop` result. -/
structure Tracer where
  netTrace : Bool
  shadowTracer : Option ShadowTracer
  forceRealSpans : Bool

/-- The nondeterministic inputs drawn during one `StartSpan` call: the
`rand.Int63()` draws for a fresh trace id and span id, the identity of a
freshly allocated `new(spanGroup)`, `time.Now()`, and the native context of
the shadow span that `linkShadowSpan` opens. -/
structure Fresh where
  traceID : Nat
  spanID : Nat
  group : Nat
  now : Nat
  shadowCtx : Nat

/-- The mutable `span` struct as populated by `StartSpan` (fields as
assigned in tracer.go; the struct itself lives in span.go). -/
structure SpanData where
  operation : String
  startTime : Nat
  traceID : Nat
  spanID : Nat
  parentSpanID : Nat
  baggage : List (String × String)
  tags : List (String × String)
  recordingGroup : Option Nat
  recordingType : RecordingType
  shadowTr : Option ShadowTracer
  shadowCtx : Option Nat
  netTr : Bool

/-- Result of `StartSpan`: the Tracer's single preallocated shared
`noopSpan`, or a freshly allocated real span. -/
inductive SpanResult
  | noop
  | real (s : SpanData)

/-- One `opentracing.StartSpanOption` as passed to `StartSpan`:
a `SpanReference` (with a possibly nil referenced context), the package's
`Recordable` marker, a `StartTime`, or one tag. -/
inductive StartSpanOption
  | spanRef (rt : RefType) (ctx : Option OTSpanContext)
  | recordable
  | withStartTime (n : Nat)
  | withTag (k v : String)

/-- The accumulated `opentracing.StartSpanOptions` built by applying each
option in order (`o.Apply(&sso)`); the zero start time stands for Go's zero
`time.Time`. -/
structure StartSpanOptions where
  references : List (RefType × Option OTSpanContext)
  startTime : Nat
  tags : List (String × String)

/-! ## StartSpan (tracer.go lines 157-290) -/

/-- `o.Apply(&sso)` for each option kind. -/
def applyOpt (sso : StartSpanOptions) : StartSpanOption → StartSpanOptions
  | StartSpanOption.spanRef rt ctx =>
    StartSpanOptions.mk (sso.references ++ [(rt, ctx)]) sso.startTime sso.tags
  | StartSpanOption.recordable => sso
  | StartSpanOption.withStartTime n => StartSpanOptions.mk sso.references n sso.tags
  | StartSpanOption.withTag k v =>
    StartSpanOptions.mk sso.references sso.startTime (mapSet sso.tags k v)

def buildSSO (opts : List StartSpanOption) : StartSpanOptions :=
  opts.foldl applyOpt (StartSpanOptions.mk [] 0 [])

/-- The type switch `if _, ok := o.(recordableOption); ok`. -/
def isRecordableOpt : StartSpanOption → Bool
  | StartSpanOption.recordable => true
  | _ => false

/-- Is this option a `SpanReference` whose referenced context is the
package's `noopSpanContext`? (tracer.go lines 165-168; note that the
reference type is not inspected there). -/
def isNoopRefOpt : StartSpanOption → Bool
  | StartSpanOption.spanRef _ (some OTSpanContext.noop) => true
  | _ => false

/-- The first fast path of `StartSpan` (lines 164-170): exactly one option,
and it is a `SpanReference` to a noop context. -/
def fastPathNoopRef : List StartSpanOption → Bool
  | [o] => isNoopRefOpt o
  | _ => false

/-- The parent-resolution loop (lines 194-217): the first reference whose
type is `ChildOfRef` or `FollowsFromRef`, whose context is non-nil and not
the noop context, is taken as the parent (then `break`). A context of a
foreign dynamic type makes the type assertion
`r.ReferencedContext.(*spanContext)` panic, modelled by the outer `none`. -/
def resolveParent : List (RefType × Option OTSpanContext) →
    Option (Option (RefType × spanContext))
  | [] => some none
  | (rt, ctx) :: rest =>
    if rt ≠ RefType.ChildOfRef ∧ rt ≠ RefType.FollowsFromRef then resolveParent rest
    else
      match ctx with
      | none => resolveParent rest
      | some OTSpanContext.noop => resolveParent rest
      | some (OTSpanContext.foreign _) => none
      | some (OTSpanContext.real sc) => some (some (rt, sc))

/-- The recording decision (lines 207-214): join the parent's group if it
has one; otherwise, a non-empty `Snowball` baggage entry on the parent
triggers a brand-new group (`new(spanGroup)`, whose identity is the fresh
`freshGroup`) with snowball kind. -/
def spanRecording (parentRes : Option (RefType × spanContext)) (freshGroup : Nat) :
    Option Nat × RecordingType :=
  match parentRes with
  | none => (none, RecordingType.NoRecording)
  | some pr =>
    match pr.2.recordingGroup with
    | some g => (some g, pr.2.recordingType)
    | none =>
      if mapGet pr.2.baggage Snowball ≠ "" then
        (some freshGroup, RecordingType.SnowballRecording)
      else (none, RecordingType.NoRecording)

/-- Modelled from the spec: `linkShadowSpan` (shadow.go, not under src/)
opens a mirrored span in the given shadow tracer — linked to the parent's
shadow context with the stated relationship kind, state internal to the
external tracer — and stores the chosen shadow-tracer instance and the
mirrored span's context on the owning span (§4.3). Here: the two fields
stored on the span. -/
def linkShadowSpan (sh : ShadowTracer) (freshShadowCtx : Nat) :
    Option ShadowTracer × Option Nat :=
  (some sh, some freshShadowCtx)

/-- Construction of the real span (lines 231-289). `recPair` carries the
recording fields attached by `s.enableRecording` (span.go, modelled from
spec §4.2 as the recording membership stored on the span). -/
def buildRealSpan (t : Tracer) (operationName : String) (sso : StartSpanOptions)
    (parentRes : Option (RefType × spanContext)) (recPair : Option Nat × RecordingType)
    (shadowTr : Option ShadowTracer) (fr : Fresh) : SpanData :=
  let startTime := if sso.startTime = 0 then fr.now else sso.startTime
  let traceID :=
    match parentRes with
    | none => fr.traceID
    | some pr => pr.2.traceID
  let baggage :=
    match parentRes with
    | none => []
    | some pr => pr.2.baggage
  let parentSpanID :=
    match parentRes with
    | none => 0
    | some pr => pr.2.spanID
  let shadowFields :=
    match shadowTr with
    | none => ((none : Option ShadowTracer), (none : Option Nat))
    | some sh => linkShadowSpan sh fr.shadowCtx
  let tags :=
    if t.netTrace || shadowTr.isSome then
      baggage.foldl (fun m p => mapSet m p.1 p.2) sso.tags
    else sso.tags
  SpanData.mk operationName startTime traceID fr.spanID parentSpanID baggage tags
    recPair.1 recPair.2 shadowFields.1 shadowFields.2 t.netTrace

/-- The main path of `StartSpan` once the parent is resolved (lines
207-289): compute the recording state, override the shadow tracer with the
parent's cached instance (lines 218-222), return the shared noop span if
nothing needs a real span (line 227), else build the real span. -/
def startSpanMain (t : Tracer) (operationName : String) (sso : StartSpanOptions)
    (recordable : Bool) (parentRes : Option (RefType × spanContext)) (fr : Fresh) :
    SpanResult :=
  let recPair := spanRecording parentRes fr.group
  let shadowTr :=
    match parentRes with
    | none => t.shadowTracer
    | some pr => pr.2.shadowTr
  if !recordable && recPair.1.isNone && shadowTr.isNone && !t.netTrace
      && !t.forceRealSpans then
    SpanResult.noop
  else
    SpanResult.real (buildRealSpan t operationName sso parentRes recPair shadowTr fr)

/-- `Tracer.StartSpan` (lines 157-290). `none` models a Go panic (a parent
reference of a foreign context type). -/
def Tracer.StartSpan (t : Tracer) (operationName : String)
    (opts : List StartSpanOption) (fr : Fresh) : Option SpanResult :=
  if fastPathNoopRef opts then some SpanResult.noop
  else if opts.isEmpty && !t.netTrace && t.shadowTracer.isNone && !t.forceRealSpans then
    some SpanResult.noop
  else
    match resolveParent (buildSSO opts).references with
    | none => none
    | some parentRes =>
      some (startSpanMain t operationName (buildSSO opts)
        (opts.any isRecordableOpt) parentRes fr)

/-! ## Inject (tracer.go lines 367-410) -/

/-- The type switch `if _, noopCtx := osc.(noopSpanContext); noopCtx`. -/
def isNoopCtx : OTSpanContext → Bool
  | OTSpanContext.noop => true
  | _ => false

/-- `Tracer.Inject`. The returned list is the sequence of `Set` calls
performed on the carrier, in order (empty for the noop fast path). -/
def Tracer.Inject (t : Tracer) (osc : OTSpanContext) (format : Format)
    (carrier : Carrier) : Except OTErr (List (String × String)) :=
  if isNoopCtx osc then Except.ok []
  else if format ≠ Format.HTTPHeaders ∧ format ≠ Format.TextMap then
    Except.error OTErr.UnsupportedFormat
  else if carrier.canWrite = false then Except.error OTErr.InvalidCarrier
  else
    match osc with
    | OTSpanContext.noop => Except.ok []
    | OTSpanContext.foreign _ => Except.error OTErr.InvalidSpanContext
    | OTSpanContext.real sc =>
      let base := (fieldNameTraceID, formatUint16 sc.traceID)
        :: (fieldNameSpanID, formatUint16 sc.spanID)
        :: sc.baggage.map (fun p => (prefixBaggage ++ p.1, p.2))
      match sc.shadowTr with
      | none => Except.ok base
      | some sh =>
        match sh.injectFn (sc.shadowCtx.getD 0) format with
        | Except.ok shadowWrites =>
          Except.ok (base ++ (fieldNameShadowType, sh.typ)
            :: shadowWrites.map (fun p => (prefixShadow ++ p.1, p.2)))
        | Except.error e => Except.error e

/-- The carrier entries produced by a successful `Inject` (empty on
error). -/
def injectOutput (t : Tracer) (osc : OTSpanContext) (format : Format)
    (carrier : Carrier) : List (String × String) :=
  match t.Inject osc format carrier with
  | Except.ok ws => ws
  | Except.error _ => []

/-! ## Extract (tracer.go lines 421-493) -/

/-- The mutable state accumulated by the `ForeachKey` handler:
the `var sc spanContext` zero value plus `shadowType`/`shadowCarrier`. -/
structure ExtractState where
  traceID : Nat
  spanID : Nat
  baggage : List (String × String)
  shadowType : String
  shadowCarrier : Option (List (String × String))

/-- The handler body (lines 439-470): lowercase the key, route it to the
trace id, span id, shadow type, baggage namespace or shadow namespace. -/
def extractHandler (st : ExtractState) (k0 v : String) : Except OTErr ExtractState :=
  let k := strToLower k0
  if k = fieldNameTraceID then
    match parseUint16 v with
    | some n => Except.ok (ExtractState.mk n st.spanID st.baggage st.shadowType st.shadowCarrier)
    | none => Except.error OTErr.SpanContextCorrupted
  else if k = fieldNameSpanID then
    match parseUint16 v with
    | some n => Except.ok (ExtractState.mk st.traceID n st.baggage st.shadowType st.shadowCarrier)
    | none => Except.error OTErr.SpanContextCorrupted
  else if k = fieldNameShadowType then
    Except.ok (ExtractState.mk st.traceID st.spanID st.baggage v st.shadowCarrier)
  else if startsWithStr prefixBaggage k then
    Except.ok (ExtractState.mk st.traceID st.spanID
      (mapSet st.baggage (trimPreStr prefixBaggage k) v) st.shadowType st.shadowCarrier)
  else if startsWithStr prefixShadow k then
    Except.ok (ExtractState.mk st.traceID st.spanID st.baggage st.shadowType
      (some (mapSet (st.shadowCarrier.getD []) (trimPreStr prefixShadow k) v)))
  else Except.ok st

/-- `mapReader.ForeachKey`: visit each entry once, in order, aborting on the
first handler error. -/
def foreachKey : List (String × String) → ExtractState → Except OTErr ExtractState
  | [], st => Except.ok st
  | (k, v) :: rest, st =>
    match extractHandler st k v with
    | Except.ok st2 => foreachKey rest st2
    | Except.error e => Except.error e

/-- The tail of `Extract` after a successful `ForeachKey` (lines 474-492):
both ids zero yields the noop context with a nil error; otherwise return
the accumulated context, honouring shadow data only when the locally
configured shadow tracer's type matches case-insensitively. -/
def extractFinish (t : Tracer) (format : Format) (st : ExtractState) :
    OTSpanContext × Option OTErr :=
  if st.traceID = 0 ∧ st.spanID = 0 then (OTSpanContext.noop, none)
  else if st.shadowType = "" then
    (OTSpanContext.real (spanContext.mk st.traceID st.spanID st.baggage
      none none none RecordingType.NoRecording), none)
  else
    match t.shadowTracer with
    | none =>
      (OTSpanContext.real (spanContext.mk st.traceID st.spanID st.baggage
        none none none RecordingType.NoRecording), none)
    | some sh =>
      if strToLower st.shadowType = strToLower sh.typ then
        match sh.extractFn format (st.shadowCarrier.getD []) with
        | Except.ok sctx =>
          (OTSpanContext.real (spanContext.mk st.traceID st.spanID st.baggage
            (some sh) (some sctx) none RecordingType.NoRecording), none)
        | Except.error e => (OTSpanContext.noop, some e)
      else
        (OTSpanContext.real (spanContext.mk st.traceID st.spanID st.baggage
          none none none RecordingType.NoRecording), none)

/-- `Tracer.Extract`. The pair mirrors the Go return
`(opentracing.SpanContext, error)`: every error case carries the noop
context, and `none` in the second component is the nil error. -/
def Tracer.Extract (t : Tracer) (format : Format) (carrier : Carrier) :
    OTSpanContext × Option OTErr :=
  if format ≠ Format.HTTPHeaders ∧ format ≠ Format.TextMap then
    (OTSpanContext.noop, some OTErr.UnsupportedFormat)
  else if carrier.canRead = false then (OTSpanContext.noop, some OTErr.InvalidCarrier)
  else
    match foreachKey carrier.entries (ExtractState.mk 0 0 [] "" none) with
    | Except.error e => (OTSpanContext.noop, some e)
    | Except.ok st => extractFinish t format st

/-! ## Tracer registry (tracer.go lines 667-702) -/

/-- `tracerRegistryImpl.Add`: append the tracer (tracers are identified by
their pointer, modelled as a `Nat` identity). -/
def tracerRegistryImpl.Add (tracers : List Nat) (t : Nat) : List Nat :=
  tracers ++ [t]

/-- `tracerRegistryImpl.Remove` (lines 683-694): delete the first member
equal to `t`, preserving order (the `copy` slice idiom); if no member
matches, `panic("removing unknown tracer")`, modelled as `none`. -/
def tracerRegistryImpl.Remove : List Nat → Nat → Option (List Nat)
  | [], _ => none
  | x :: xs, t =>
    if x = t then some xs
    else (tracerRegistryImpl.Remove xs t).map (fun ys => x :: ys)

/-! ## Observables used by the claims -/

/-- Is the result of `StartSpan` the shared noop span? (`none`, a panic,
yields `false`.) -/
def resultIsNoop : Option SpanResult → Bool
  | some SpanResult.noop => true
  | _ => false

/-- Recording membership of a `StartSpan` result: `some (group, kind)` for a
real span, `none` for the noop span or a panic. -/
def recordingOf : Option SpanResult → Option (Option Nat × RecordingType)
  | some (SpanResult.real s) => some (s.recordingGroup, s.recordingType)
  | _ => none

/-- Shadow tracer attached to a `StartSpan` result: `some none` for the noop
span (it carries no shadow state), `some s.shadowTr` for a real span,
`none` for a panic. -/
def resultShadowOf : Option SpanResult → Option (Option ShadowTracer)
  | some SpanResult.noop => some none
  | some (SpanResult.real s) => some s.shadowTr
  | none => none

/-- Baggage visible in an extracted context (the noop context carries
none). -/
def ctxBaggage : OTSpanContext → List (String × String)
  | OTSpanContext.real sc => sc.baggage
  | _ => []

/-! ## Helper lemmas -/

/-- If the first fast path of `StartSpan` fires, the parent-resolution loop
would have found no parent: the single option is a reference to the noop
context, which the loop skips. -/
theorem resolveParent_of_fastPath (opts : List StartSpanOption)
    (h : fastPathNoopRef opts = true) :
    resolveParent (buildSSO opts).references = some none := by
  cases opts with
  | nil => simp [fastPathNoopRef] at h
  | cons o rest =>
    cases rest with
    | cons p q => simp [fastPathNoopRef] at h
    | nil =>
      cases o with
      | spanRef rt ctx =>
        match ctx with
        | none => simp [fastPathNoopRef, isNoopRefOpt] at h
        | some OTSpanContext.noop =>
          show resolveParent [(rt, some OTSpanContext.noop)] = some none
          by_cases hrt : rt ≠ RefType.ChildOfRef ∧ rt ≠ RefType.FollowsFromRef
          · simp [resolveParent, hrt]
          · simp [resolveParent, hrt]
        | some (OTSpanContext.real sc) => simp [fastPathNoopRef, isNoopRefOpt] at h
        | some (OTSpanContext.foreign n) => simp [fastPathNoopRef, isNoopRefOpt] at h
      | recordable => simp [fastPathNoopRef, isNoopRefOpt] at h
      | withStartTime n => simp [fastPathNoopRef, isNoopRefOpt] at h
      | withTag k v => simp [fastPathNoopRef, isNoopRefOpt] at h

/-! ## Claim theorems -/

/-- C9: `Tracer.Inject` on the noop context succeeds with no writes for
every format value and every carrier value — the noop short-circuit
precedes the format and carrier validation, so no `UnsupportedFormat` or
`InvalidCarrier` error is ever reported for a noop context. -/
theorem c9_inject_noop (t : Tracer) (format : Format) (carrier : Carrier) :
    t.Inject OTSpanContext.noop format carrier = Except.ok [] := rfl

/-- C8: `tracerRegistryImpl.Remove` of a tracer that is not a member aborts
(panics, modelled as `none`); `Remove` of a present tracer deletes exactly
that member (the first occurrence, order preserved) and returns normally. -/
theorem c8_registry_remove (l : List Nat) (t : Nat) :
    (t ∉ l → tracerRegistryImpl.Remove l t = none) ∧
    (t ∈ l → tracerRegistryImpl.Remove l t = some (l.erase t)) := by
  induction l with
  | nil =>
    exact ⟨fun _ => rfl, fun h => absurd h (List.not_mem_nil t)⟩
  | cons x xs ih =>
    constructor
    · intro h
      have hx : ¬(x = t) := fun he => h (he ▸ List.mem_cons_self x xs)
      have hxs : t ∉ xs := fun hm => h (List.mem_cons_of_mem x hm)
      simp [tracerRegistryImpl.Remove, hx, ih.1 hxs]
    · intro h
      by_cases hx : x = t
      · subst hx
        simp [tracerRegistryImpl.Remove, List.erase_cons_head]
      · have hm : t ∈ xs := by
          rcases List.mem_cons.mp h with h1 | h1
          · exact absurd h1.symm hx
          · exact h1
        have hbe : ¬(x == t) = true := by simpa using hx
        simp [tracerRegistryImpl.Remove, hx, ih.2 hm, List.erase_cons_tail hbe]

/-- Witness for C8 at a concrete registry. -/
theorem c8_registry_remove_witness :
    tracerRegistryImpl.Remove [1, 2, 3] 2 = some ([1, 2, 3].erase 2) ∧
    tracerRegistryImpl.Remove [1, 2, 3] 5 = none :=
  ⟨(c8_registry_remove [1, 2, 3] 2).2 (by decide),
   (c8_registry_remove [1, 2, 3] 5).1 (by decide)⟩

/-- C2: if no supplied parent reference resolves to a real (non-noop)
context, the net/trace debug sink is disabled, no shadow tracer is
configured, the `Recordable` option is absent and `forceRealSpans` is
false, then `StartSpan` returns the Tracer's single preallocated shared
noop span. -/
theorem c2_noop_fast_path (t : Tracer) (op : String) (opts : List StartSpanOption)
    (fr : Fresh)
    (hres : resolveParent (buildSSO opts).references = some none)
    (hrec : opts.any isRecordableOpt = false)
    (hnet : t.netTrace = false)
    (hsh : t.shadowTracer = none)
    (hforce : t.forceRealSpans = false) :
    t.StartSpan op opts fr = some SpanResult.noop := by
  unfold Tracer.StartSpan
  by_cases h1 : fastPathNoopRef opts = true
  · simp [h1]
  · cases h2 : opts.isEmpty
    · simp only [h1, Bool.false_eq_true, if_false, h2, hnet, hsh, hforce,
        Bool.not_false, Option.isNone_none, Bool.and_self, Bool.false_and,
        Bool.and_false, Bool.and_true, if_false]
      rw [hres]
      simp [startSpanMain, spanRecording, hrec, hnet, hsh, hforce]
    · simp [h1, h2, hnet, hsh, hforce]

/-- Witness for C2 at a concrete call: one `FollowsFrom` reference to a nil
context and one reference to the noop context, plus a tag option. -/
theorem c2_noop_fast_path_witness :
    Tracer.StartSpan (Tracer.mk false none false) "op"
      [StartSpanOption.spanRef RefType.FollowsFromRef none,
       StartSpanOption.spanRef RefType.ChildOfRef (some OTSpanContext.noop),
       StartSpanOption.withTag "k" "v"]
      (Fresh.mk 1 2 3 4 5) = some SpanResult.noop :=
  c2_noop_fast_path (Tracer.mk false none false) "op" _ (Fresh.mk 1 2 3 4 5)
    rfl rfl rfl rfl rfl

/-- C4 (counterexample to the claim as stated): with `forceRealSpans` set,
`StartSpan` with a single noop-context parent reference returns the noop
span (the fast path fires before any configuration check), while
`StartSpan` with no options allocates a real span — the two results
differ. -/
theorem c4_counterexample :
    ¬ (Tracer.StartSpan (Tracer.mk false none true) "op"
        [StartSpanOption.spanRef RefType.ChildOfRef (some OTSpanContext.noop)]
        (Fresh.mk 1 2 3 4 5)
      = Tracer.StartSpan (Tracer.mk false none true) "op" [] (Fresh.mk 1 2 3 4 5)) := by
  intro h
  exact absurd (congrArg resultIsNoop h) (by decide)

/-- C4 (amended): when the net/trace debug sink is disabled, no shadow
tracer is configured and `forceRealSpans` is false, `StartSpan` with a
single parent reference to the noop context returns exactly the result of
`StartSpan` with no options (both the shared noop span); under other
configurations the two calls differ. -/
theorem c4_noop_parent_amended (t : Tracer) (h1 : t.netTrace = false)
    (h2 : t.shadowTracer = none) (h3 : t.forceRealSpans = false)
    (op : String) (rt : RefType) (fr : Fresh) :
    t.StartSpan op [StartSpanOption.spanRef rt (some OTSpanContext.noop)] fr
      = t.StartSpan op [] fr := by
  cases t
  subst h1 h2 h3
  rfl

/-- Witness for C4 (amended) at a concrete configuration. -/
theorem c4_noop_parent_amended_witness :
    Tracer.StartSpan (Tracer.mk false none false) "op"
      [StartSpanOption.spanRef RefType.ChildOfRef (some OTSpanContext.noop)]
      (Fresh.mk 1 2 3 4 5)
    = Tracer.StartSpan (Tracer.mk false none false) "op" [] (Fresh.mk 1 2 3 4 5) :=
  c4_noop_parent_amended (Tracer.mk false none false) rfl rfl rfl "op"
    RefType.ChildOfRef (Fresh.mk 1 2 3 4 5)

/-- C3: a `StartSpan` call whose resolved parent context is not attached to
a RecordingGroup but whose baggage maps the reserved key `"sb"` to a
non-empty string returns a real span recording into the brand-new
RecordingGroup allocated by this call (`new(spanGroup)`, identity
`fr.group`) with kind Snowball — with no explicit `StartRecording` call
made. -/
theorem c3_snowball (t : Tracer) (op : String) (opts : List StartSpanOption)
    (fr : Fresh) (rt : RefType) (pc : spanContext)
    (hres : resolveParent (buildSSO opts).references = some (some (rt, pc)))
    (hpg : pc.recordingGroup = none)
    (hsb : mapGet pc.baggage Snowball ≠ "") :
    recordingOf (t.StartSpan op opts fr)
      = some (some fr.group, RecordingType.SnowballRecording) := by
  have hfp : fastPathNoopRef opts = false := by
    cases hb : fastPathNoopRef opts
    · rfl
    · rw [resolveParent_of_fastPath opts hb] at hres
      simp at hres
  have hne : opts.isEmpty = false := by
    cases opts with
    | nil => simp [buildSSO, resolveParent] at hres
    | cons o rest => rfl
  unfold Tracer.StartSpan
  rw [hfp, hne]
  simp only [Bool.false_eq_true, if_false, Bool.false_and]
  rw [hres]
  simp [startSpanMain, spanRecording, hpg, hsb, buildRealSpan, recordingOf]

/-- Witness for C3: a child of a parent context carrying `sb=1` baggage and
no recording group records into the fresh group (identity 3) with snowball
kind. -/
theorem c3_snowball_witness :
    recordingOf (Tracer.StartSpan (Tracer.mk false none false) "child"
      [StartSpanOption.spanRef RefType.ChildOfRef (some (OTSpanContext.real
        (spanContext.mk 7 8 [("sb", "1")] none none none RecordingType.NoRecording)))]
      (Fresh.mk 1 2 3 4 5))
      = some (some 3, RecordingType.SnowballRecording) :=
  c3_snowball (Tracer.mk false none false) "child" _ (Fresh.mk 1 2 3 4 5)
    RefType.ChildOfRef
    (spanContext.mk 7 8 [("sb", "1")] none none none RecordingType.NoRecording)
    rfl rfl (by decide)

/-- C7: for a `StartSpan` call with a resolved real parent context, the
shadow tracer of the returned span is exactly the instance cached in the
parent's context — never the Tracer's currently configured shadow tracer;
in particular the child carries no shadow mirror when the parent's context
carries none, whatever the Tracer currently has configured. -/
theorem c7_parent_shadow (t : Tracer) (op : String) (opts : List StartSpanOption)
    (fr : Fresh) (rt : RefType) (pc : spanContext)
    (hres : resolveParent (buildSSO opts).references = some (some (rt, pc))) :
    resultShadowOf (t.StartSpan op opts fr) = some pc.shadowTr := by
  have hfp : fastPathNoopRef opts = false := by
    cases hb : fastPathNoopRef opts
    · rfl
    · rw [resolveParent_of_fastPath opts hb] at hres
      simp at hres
  have hne : opts.isEmpty = false := by
    cases opts with
    | nil => simp [buildSSO, resolveParent] at hres
    | cons o rest => rfl
  unfold Tracer.StartSpan
  rw [hfp, hne]
  simp only [Bool.false_eq_true, if_false, Bool.false_and]
  rw [hres]
  cases hsh : pc.shadowTr with
  | some sh =>
    simp [startSpanMain, hsh, buildRealSpan, linkShadowSpan, resultShadowOf]
  | none =>
    simp only [startSpanMain, hsh]
    split
    · simp [resultShadowOf]
    · simp [buildRealSpan, hsh, linkShadowSpan, resultShadowOf]

/-- Witness for C7: the Tracer has a shadow tracer configured, but the
parent context carries none — the resulting span has no shadow mirror. -/
theorem c7_parent_shadow_witness :
    resultShadowOf (Tracer.StartSpan
      (Tracer.mk false
        (some (ShadowTracer.mk 1 "light" (fun _ _ => Except.ok [])
          (fun _ _ => Except.ok 0))) false)
      "child"
      [StartSpanOption.spanRef RefType.ChildOfRef (some (OTSpanContext.real
        (spanContext.mk 7 8 [] none none none RecordingType.NoRecording)))]
      (Fresh.mk 1 2 3 4 5))
      = some none :=
  c7_parent_shadow
    (Tracer.mk false
      (some (ShadowTracer.mk 1 "light" (fun _ _ => Except.ok [])
        (fun _ _ => Except.ok 0))) false)
    "child" _ (Fresh.mk 1 2 3 4 5) RefType.ChildOfRef
    (spanContext.mk 7 8 [] none none none RecordingType.NoRecording) rfl

/-- A supported format falsifies the rejection condition of
Inject/Extract. -/
theorem supportedFormat_cond (format : Format)
    (hfmt : format = Format.HTTPHeaders ∨ format = Format.TextMap) :
    ¬(format ≠ Format.HTTPHeaders ∧ format ≠ Format.TextMap) := by
  rcases hfmt with h | h <;> simp [h]

/-- Every error the `ForeachKey` handler can produce is
`SpanContextCorrupted`. -/
theorem extractHandler_error_eq (st : ExtractState) (k v : String) (e : OTErr)
    (h : extractHandler st k v = Except.error e) : e = OTErr.SpanContextCorrupted := by
  simp only [extractHandler] at h
  by_cases h1 : strToLower k = fieldNameTraceID
  · rw [if_pos h1] at h
    cases hp : parseUint16 v with
    | some n => rw [hp] at h; exact Except.noConfusion h
    | none => rw [hp] at h; injection h with he; exact he.symm
  · rw [if_neg h1] at h
    by_cases h2 : strToLower k = fieldNameSpanID
    · rw [if_pos h2] at h
      cases hp : parseUint16 v with
      | some n => rw [hp] at h; exact Except.noConfusion h
      | none => rw [hp] at h; injection h with he; exact he.symm
    · rw [if_neg h2] at h
      by_cases h3 : strToLower k = fieldNameShadowType
      · rw [if_pos h3] at h
        exact Except.noConfusion h
      · rw [if_neg h3] at h
        by_cases h4 : startsWithStr prefixBaggage (strToLower k) = true
        · rw [if_pos h4] at h
          exact Except.noConfusion h
        · rw [if_neg h4] at h
          by_cases h5 : startsWithStr prefixShadow (strToLower k) = true
          · rw [if_pos h5] at h
            exact Except.noConfusion h
          · rw [if_neg h5] at h
            exact Except.noConfusion h

/-- Every error out of `foreachKey` is `SpanContextCorrupted`. -/
theorem foreachKey_error_eq (entries : List (String × String)) (st : ExtractState)
    (e : OTErr) (h : foreachKey entries st = Except.error e) :
    e = OTErr.SpanContextCorrupted := by
  induction entries generalizing st with
  | nil => simp [foreachKey] at h
  | cons q rest ih =>
    obtain ⟨k, v⟩ := q
    unfold foreachKey at h
    cases hh : extractHandler st k v with
    | ok st2 =>
      rw [hh] at h
      exact ih st2 h
    | error e2 =>
      rw [hh] at h
      injection h with he
      rw [← he]
      exact extractHandler_error_eq st k v e2 hh

/-- If some entry makes the handler fail, `foreachKey` fails with
`SpanContextCorrupted` from any starting state. -/
theorem foreachKey_error_of_mem (entries : List (String × String)) (k v : String)
    (hmem : (k, v) ∈ entries)
    (hbad : ∀ st, extractHandler st k v = Except.error OTErr.SpanContextCorrupted) :
    ∀ st, foreachKey entries st = Except.error OTErr.SpanContextCorrupted := by
  induction entries with
  | nil => cases hmem
  | cons q rest ih =>
    intro st
    obtain ⟨k2, v2⟩ := q
    unfold foreachKey
    cases hh : extractHandler st k2 v2 with
    | error e2 =>
      have he := extractHandler_error_eq st k2 v2 e2 hh
      rw [he]
    | ok st2 =>
      rcases List.mem_cons.mp hmem with h1 | h1
      · injection h1 with hk hv
        subst hk
        subst hv
        rw [hbad st] at hh
        cases hh
      · exact ih h1 st2

/-- A trace-id or span-id entry whose value does not parse makes the
handler fail with `SpanContextCorrupted`. -/
theorem extractHandler_bad_id (k v : String)
    (hk : strToLower k = fieldNameTraceID ∨ strToLower k = fieldNameSpanID)
    (hv : parseUint16 v = none) (st : ExtractState) :
    extractHandler st k v = Except.error OTErr.SpanContextCorrupted := by
  have hdiff : fieldNameSpanID ≠ fieldNameTraceID := by decide
  rcases hk with hk | hk <;> simp [extractHandler, hk, hv, hdiff]

/-- C5: `Extract` on a supported format and readable text-map carrier that
contains a trace-id (or span-id) entry whose value is not parsable as a
hexadecimal uint64 returns the `SpanContextCorrupted` error together with
the noop context (a usable context, never nil). -/
theorem c5_corrupted_id (t : Tracer) (format : Format) (carrier : Carrier)
    (hfmt : format = Format.HTTPHeaders ∨ format = Format.TextMap)
    (hread : carrier.canRead = true)
    (k v : String) (hmem : (k, v) ∈ carrier.entries)
    (hk : strToLower k = fieldNameTraceID ∨ strToLower k = fieldNameSpanID)
    (hv : parseUint16 v = none) :
    t.Extract format carrier = (OTSpanContext.noop, some OTErr.SpanContextCorrupted) := by
  unfold Tracer.Extract
  rw [if_neg (supportedFormat_cond format hfmt)]
  rw [if_neg (show ¬(carrier.canRead = false) by simp [hread])]
  rw [foreachKey_error_of_mem carrier.entries k v hmem
    (extractHandler_bad_id k v hk hv) (ExtractState.mk 0 0 [] "" none)]

/-- Witness for C5: a mixed-case trace-id key with the unparsable value
`"xyz"`. -/
theorem c5_corrupted_id_witness :
    Tracer.Extract (Tracer.mk false none false) Format.TextMap
      (Carrier.mk true true [("CRDB-Tracer-TraceID", "xyz")])
      = (OTSpanContext.noop, some OTErr.SpanContextCorrupted) :=
  c5_corrupted_id (Tracer.mk false none false) Format.TextMap
    (Carrier.mk true true [("CRDB-Tracer-TraceID", "xyz")])
    (Or.inr rfl) rfl "CRDB-Tracer-TraceID" "xyz" (by decide)
    (Or.inl (by decide)) (by decide)

/-- A key recognized by none of the handler's cases leaves the state
unchanged. -/
theorem extractHandler_unrecognized (st : ExtractState) (k v : String)
    (h1 : strToLower k ≠ fieldNameTraceID) (h2 : strToLower k ≠ fieldNameSpanID)
    (h3 : strToLower k ≠ fieldNameShadowType)
    (h4 : startsWithStr prefixBaggage (strToLower k) = false)
    (h5 : startsWithStr prefixShadow (strToLower k) = false) :
    extractHandler st k v = Except.ok st := by
  simp [extractHandler, h1, h2, h3, h4, h5]

/-- `foreachKey` over only-unrecognized keys is the identity. -/
theorem foreachKey_unrecognized (entries : List (String × String))
    (h : ∀ p ∈ entries, strToLower p.1 ≠ fieldNameTraceID ∧
      strToLower p.1 ≠ fieldNameSpanID ∧ strToLower p.1 ≠ fieldNameShadowType ∧
      startsWithStr prefixBaggage (strToLower p.1) = false ∧
      startsWithStr prefixShadow (strToLower p.1) = false) :
    ∀ st, foreachKey entries st = Except.ok st := by
  induction entries with
  | nil => intro st; rfl
  | cons q rest ih =>
    intro st
    obtain ⟨k, v⟩ := q
    have hq := h (k, v) (List.mem_cons_self _ _)
    unfold foreachKey
    rw [extractHandler_unrecognized st k v hq.1 hq.2.1 hq.2.2.1 hq.2.2.2.1 hq.2.2.2.2]
    exact ih (fun p hp => h p (List.mem_cons_of_mem _ hp)) st

/-- C6: `Extract` on a supported format and readable carrier none of whose
keys is recognized (no trace-id, span-id, shadow-type, baggage-prefixed or
shadow-prefixed key) returns the canonical noop context and a nil error. -/
theorem c6_no_recognized_keys (t : Tracer) (format : Format) (carrier : Carrier)
    (hfmt : format = Format.HTTPHeaders ∨ format = Format.TextMap)
    (hread : carrier.canRead = true)
    (h : ∀ p ∈ carrier.entries, strToLower p.1 ≠ fieldNameTraceID ∧
      strToLower p.1 ≠ fieldNameSpanID ∧ strToLower p.1 ≠ fieldNameShadowType ∧
      startsWithStr prefixBaggage (strToLower p.1) = false ∧
      startsWithStr prefixShadow (strToLower p.1) = false) :
    t.Extract format carrier = (OTSpanContext.noop, none) := by
  unfold Tracer.Extract
  rw [if_neg (supportedFormat_cond format hfmt)]
  rw [if_neg (show ¬(carrier.canRead = false) by simp [hread])]
  rw [foreachKey_unrecognized carrier.entries h (ExtractState.mk 0 0 [] "" none)]
  rfl

/-- Witness for C6: plain HTTP headers carry no tracing keys. -/
theorem c6_no_recognized_keys_witness :
    Tracer.Extract (Tracer.mk false none false) Format.HTTPHeaders
      (Carrier.mk true true [("Content-Type", "text/plain"), ("Accept", "x")])
      = (OTSpanContext.noop, none) :=
  c6_no_recognized_keys (Tracer.mk false none false) Format.HTTPHeaders
    (Carrier.mk true true [("Content-Type", "text/plain"), ("Accept", "x")])
    (Or.inl rfl) rfl (by decide)

/-- If every trace-id/span-id entry parses to zero, one handler step keeps
both ids zero and succeeds. -/
theorem extractHandler_zero (st : ExtractState) (k v : String)
    (hk1 : strToLower k = fieldNameTraceID → parseUint16 v = some 0)
    (hk2 : strToLower k = fieldNameSpanID → parseUint16 v = some 0)
    (ht : st.traceID = 0) (hs : st.spanID = 0) :
    ∃ st2, extractHandler st k v = Except.ok st2 ∧ st2.traceID = 0 ∧ st2.spanID = 0 := by
  simp only [extractHandler]
  by_cases h1 : strToLower k = fieldNameTraceID
  · rw [if_pos h1, hk1 h1]
    exact ⟨_, rfl, rfl, hs⟩
  · rw [if_neg h1]
    by_cases h2 : strToLower k = fieldNameSpanID
    · rw [if_pos h2, hk2 h2]
      exact ⟨_, rfl, ht, rfl⟩
    · rw [if_neg h2]
      by_cases h3 : strToLower k = fieldNameShadowType
      · rw [if_pos h3]
        exact ⟨_, rfl, ht, hs⟩
      · rw [if_neg h3]
        by_cases h4 : startsWithStr prefixBaggage (strToLower k) = true
        · rw [if_pos h4]
          exact ⟨_, rfl, ht, hs⟩
        · rw [if_neg h4]
          by_cases h5 : startsWithStr prefixShadow (strToLower k) = true
          · rw [if_pos h5]
            exact ⟨_, rfl, ht, hs⟩
          · rw [if_neg h5]
            exact ⟨st, rfl, ht, hs⟩

/-- `foreachKey` over entries whose id values all parse to zero succeeds
with both ids still zero. -/
theorem foreachKey_zero (entries : List (String × String))
    (h : ∀ p ∈ entries, (strToLower p.1 = fieldNameTraceID → parseUint16 p.2 = some 0) ∧
      (strToLower p.1 = fieldNameSpanID → parseUint16 p.2 = some 0)) :
    ∀ st, st.traceID = 0 → st.spanID = 0 →
      ∃ st2, foreachKey entries st = Except.ok st2 ∧ st2.traceID = 0 ∧ st2.spanID = 0 := by
  induction entries with
  | nil => exact fun st ht hs => ⟨st, rfl, ht, hs⟩
  | cons q rest ih =>
    intro st ht hs
    obtain ⟨k, v⟩ := q
    have hq := h (k, v) (List.mem_cons_self _ _)
    obtain ⟨st2, hst2, ht2, hs2⟩ := extractHandler_zero st k v hq.1 hq.2 ht hs
    unfold foreachKey
    rw [hst2]
    exact ih (fun p hp => h p (List.mem_cons_of_mem _ hp)) st2 ht2 hs2

/-- C10: `Extract` on a supported format and readable carrier whose
trace-id and span-id entries all parse to the numeric value zero (in
particular when both keys are explicitly present with value "0") returns
the noop context with a nil error, discarding any baggage entries present
in the carrier. -/
theorem c10_zero_ids_noop (t : Tracer) (format : Format) (carrier : Carrier)
    (hfmt : format = Format.HTTPHeaders ∨ format = Format.TextMap)
    (hread : carrier.canRead = true)
    (h : ∀ p ∈ carrier.entries,
      (strToLower p.1 = fieldNameTraceID → parseUint16 p.2 = some 0) ∧
      (strToLower p.1 = fieldNameSpanID → parseUint16 p.2 = some 0)) :
    t.Extract format carrier = (OTSpanContext.noop, none) := by
  unfold Tracer.Extract
  rw [if_neg (supportedFormat_cond format hfmt)]
  rw [if_neg (show ¬(carrier.canRead = false) by simp [hread])]
  obtain ⟨st2, hst2, ht2, hs2⟩ := foreachKey_zero carrier.entries h
    (ExtractState.mk 0 0 [] "" none) rfl rfl
  rw [hst2]
  simp [extractFinish, ht2, hs2]

/-- Witness for C10: both id keys explicitly present with value "0" and a
baggage entry, all discarded. -/
theorem c10_zero_ids_noop_witness :
    Tracer.Extract (Tracer.mk false none false) Format.TextMap
      (Carrier.mk true true [("crdb-tracer-traceid", "0"),
        ("crdb-tracer-spanid", "0"), ("crdb-baggage-sb", "1")])
      = (OTSpanContext.noop, none) :=
  c10_zero_ids_noop (Tracer.mk false none false) Format.TextMap
    (Carrier.mk true true [("crdb-tracer-traceid", "0"),
      ("crdb-tracer-spanid", "0"), ("crdb-baggage-sb", "1")])
    (Or.inr rfl) rfl (by decide)

/-! ## Round-trip lemmas: hexadecimal codec -/

theorem hexDigitVal_hexDigitChar (d : Nat) (h : d < 16) :
    hexDigitVal (hexDigitChar d) = some d := by
  interval_cases d <;> decide

theorem parseHexCore_append (l1 l2 : List Char) (acc : Nat) :
    parseHexCore (l1 ++ l2) acc =
      match parseHexCore l1 acc with
      | some v => parseHexCore l2 v
      | none => none := by
  induction l1 generalizing acc with
  | nil => rfl
  | cons c cs ih =>
    cases h : hexDigitVal c with
    | some d => simp [parseHexCore, h, ih]
    | none => simp [parseHexCore, h]

theorem toHexAux_parse (fuel : Nat) : ∀ n acc, n < 16 ^ fuel →
    parseHexCore (toHexAux fuel n) acc
      = some (acc * 16 ^ (toHexAux fuel n).length + n) := by
  induction fuel with
  | zero =>
    intro n acc h
    have hn : n = 0 := by omega
    subst hn
    simp [toHexAux, parseHexCore]
  | succ fuel ih =>
    intro n acc h
    by_cases h16 : n < 16
    · simp only [toHexAux, if_pos h16]
      simp [parseHexCore, hexDigitVal_hexDigitChar n h16]
    · simp only [toHexAux, if_neg h16]
      have hdiv : n / 16 < 16 ^ fuel := by
        rw [Nat.div_lt_iff_lt_mul (by norm_num : 0 < 16)]
        calc n < 16 ^ (fuel + 1) := h
        _ = 16 ^ fuel * 16 := by ring
      have hm : n % 16 < 16 := Nat.mod_lt _ (by norm_num)
      rw [parseHexCore_append]
      rw [ih (n / 16) acc hdiv]
      simp [parseHexCore, hexDigitVal_hexDigitChar _ hm]
      rw [pow_succ]
      have h1 : (acc * 16 ^ (toHexAux fuel (n / 16)).length + n / 16) * 16
          = acc * (16 ^ (toHexAux fuel (n / 16)).length * 16) + n / 16 * 16 := by ring
      rw [h1, Nat.add_assoc]
      congr 1
      omega

theorem toHexAux_ne_nil (fuel n : Nat) : toHexAux (fuel + 1) n ≠ [] := by
  simp only [toHexAux]
  by_cases h : n < 16
  · simp [h]
  · simp [h]

theorem parseUint16_mk_cons (c : Char) (cs : List Char) :
    parseUint16 (String.mk (c :: cs)) =
      match parseHexCore (c :: cs) 0 with
      | some n => if n < 2 ^ 64 then some n else none
      | none => none := rfl

/-- The codec round-trips every value of 64-bit range: parsing the
lowercase hexadecimal rendering returns the original value. -/
theorem parseUint16_formatUint16 (n : Nat) (h : n < 2 ^ 64) :
    parseUint16 (formatUint16 n) = some n := by
  have hne := toHexAux_ne_nil n n
  have hlt : n < 16 ^ (n + 1) := by
    calc n < 16 ^ n := Nat.lt_pow_self (by norm_num) n
    _ ≤ 16 ^ (n + 1) := Nat.pow_le_pow_right (by norm_num) (Nat.le_succ n)
  have hp := toHexAux_parse (n + 1) n 0 hlt
  unfold formatUint16
  cases hl : toHexAux (n + 1) n with
  | nil => exact absurd hl hne
  | cons c cs =>
    rw [hl] at hp
    simp only [Nat.zero_mul, Nat.zero_add] at hp
    rw [parseUint16_mk_cons, hp]
    show (if n < 2 ^ 64 then some n else (none : Option Nat)) = some n
    rw [if_pos h]

/-! ## Round-trip lemmas: the reserved key namespace -/

theorem strToLower_append (a b : String) :
    strToLower (a ++ b) = strToLower a ++ strToLower b := by
  show String.mk ((a ++ b).data.map charToLower) = _
  have hd : (a ++ b).data = a.data ++ b.data := rfl
  rw [hd, List.map_append]
  rfl

theorem baggage_key_ne_traceID (x : String) : prefixBaggage ++ x ≠ fieldNameTraceID := by
  intro h
  have hd : prefixBaggage.data ++ x.data = fieldNameTraceID.data := congrArg String.data h
  have h5 : (prefixBaggage.data ++ x.data).get? 5 = fieldNameTraceID.data.get? 5 := by rw [hd]
  rw [List.get?_append (by decide)] at h5
  exact absurd h5 (by decide)

theorem baggage_key_ne_spanID (x : String) : prefixBaggage ++ x ≠ fieldNameSpanID := by
  intro h
  have hd : prefixBaggage.data ++ x.data = fieldNameSpanID.data := congrArg String.data h
  have h5 : (prefixBaggage.data ++ x.data).get? 5 = fieldNameSpanID.data.get? 5 := by rw [hd]
  rw [List.get?_append (by decide)] at h5
  exact absurd h5 (by decide)

theorem baggage_key_ne_shadowType (x : String) :
    prefixBaggage ++ x ≠ fieldNameShadowType := by
  intro h
  have hd : prefixBaggage.data ++ x.data = fieldNameShadowType.data := congrArg String.data h
  have h5 : (prefixBaggage.data ++ x.data).get? 5 = fieldNameShadowType.data.get? 5 := by rw [hd]
  rw [List.get?_append (by decide)] at h5
  exact absurd h5 (by decide)

theorem startsWith_baggage (x : String) :
    startsWithStr prefixBaggage (prefixBaggage ++ x) = true := by
  show prefixBaggage.data.isPrefixOf (prefixBaggage ++ x).data = true
  have hd : (prefixBaggage ++ x).data = prefixBaggage.data ++ x.data := rfl
  rw [hd, List.isPrefixOf_iff_prefix]
  exact List.prefix_append _ _

theorem trimPre_baggage (x : String) :
    trimPreStr prefixBaggage (prefixBaggage ++ x) = x := by
  unfold trimPreStr
  rw [if_pos (startsWith_baggage x)]
  show String.mk ((prefixBaggage ++ x).data.drop prefixBaggage.data.length) = x
  have hd : (prefixBaggage ++ x).data = prefixBaggage.data ++ x.data := rfl
  rw [hd, List.drop_left]

/-! ## Round-trip lemmas: handler steps and state assembly -/

theorem foreachKey_cons (k v : String) (rest : List (String × String))
    (st st2 : ExtractState) (h : extractHandler st k v = Except.ok st2) :
    foreachKey ((k, v) :: rest) st = foreachKey rest st2 := by
  show (match extractHandler st k v with
    | Except.ok st2 => foreachKey rest st2
    | Except.error e => Except.error e) = foreachKey rest st2
  rw [h]

theorem extractHandler_traceid (st : ExtractState) (v : String) (n : Nat)
    (h : parseUint16 v = some n) :
    extractHandler st fieldNameTraceID v
      = Except.ok (ExtractState.mk n st.spanID st.baggage st.shadowType
          st.shadowCarrier) := by
  have hlow : strToLower fieldNameTraceID = fieldNameTraceID := by decide
  simp only [extractHandler]
  rw [hlow, if_pos rfl, h]

theorem extractHandler_spanid (st : ExtractState) (v : String) (n : Nat)
    (h : parseUint16 v = some n) :
    extractHandler st fieldNameSpanID v
      = Except.ok (ExtractState.mk st.traceID n st.baggage st.shadowType
          st.shadowCarrier) := by
  have hlow : strToLower fieldNameSpanID = fieldNameSpanID := by decide
  have hne : fieldNameSpanID ≠ fieldNameTraceID := by decide
  simp only [extractHandler]
  rw [hlow, if_neg hne, if_pos rfl, h]

theorem extractHandler_baggage (st : ExtractState) (k v : String)
    (hk : strToLower k = k) :
    extractHandler st (prefixBaggage ++ k) v
      = Except.ok (ExtractState.mk st.traceID st.spanID
          (mapSet st.baggage k v) st.shadowType st.shadowCarrier) := by
  have hlowp : strToLower prefixBaggage = prefixBaggage := by decide
  have hlow : strToLower (prefixBaggage ++ k) = prefixBaggage ++ k := by
    rw [strToLower_append, hlowp, hk]
  simp only [extractHandler]
  rw [hlow, if_neg (baggage_key_ne_traceID k), if_neg (baggage_key_ne_spanID k),
    if_neg (baggage_key_ne_shadowType k), if_pos (startsWith_baggage k),
    trimPre_baggage k]

/-- Reading back the baggage-prefixed entries accumulates `mapSet` of each
(lower-case-invariant) key in order. -/
theorem foreachKey_baggage (bag : List (String × String)) :
    ∀ st, (∀ p ∈ bag, strToLower p.1 = p.1) →
    foreachKey (bag.map (fun p => (prefixBaggage ++ p.1, p.2))) st
      = Except.ok (ExtractState.mk st.traceID st.spanID
          (bag.foldl (fun m p => mapSet m p.1 p.2) st.baggage)
          st.shadowType st.shadowCarrier) := by
  induction bag with
  | nil => intro st h; rfl
  | cons p rest ih =>
    intro st h
    obtain ⟨k, v⟩ := p
    have hk : strToLower k = k := h (k, v) (List.mem_cons_self _ _)
    rw [List.map_cons]
    rw [foreachKey_cons _ _ _ _ _ (extractHandler_baggage st k v hk)]
    rw [ih _ (fun q hq => h q (List.mem_cons_of_mem _ hq))]
    rfl

/-- `foldl mapSet` over entries with pairwise-distinct keys, all fresh for
the accumulator, is plain concatenation. -/
theorem foldl_mapSet_append (bag : List (String × String)) :
    ∀ acc, (∀ p ∈ bag, ∀ q ∈ acc, q.1 ≠ p.1) → (bag.map Prod.fst).Nodup →
    bag.foldl (fun m p => mapSet m p.1 p.2) acc = acc ++ bag := by
  induction bag with
  | nil => intro acc h hd; simp
  | cons p rest ih =>
    intro acc h hd
    obtain ⟨k, v⟩ := p
    rw [List.map_cons, List.nodup_cons] at hd
    obtain ⟨hk_notin, hd2⟩ := hd
    rw [List.foldl_cons]
    have hstep : mapSet acc k v = acc ++ [(k, v)] := by
      unfold mapSet
      congr 1
      rw [List.filter_eq_self]
      intro q hq
      have hq1 : q.1 ≠ k := h (k, v) (List.mem_cons_self _ _) q hq
      exact decide_eq_true hq1
    rw [hstep]
    have harg : ∀ p2 ∈ rest, ∀ q ∈ acc ++ [(k, v)], q.1 ≠ p2.1 := by
      intro p2 hp2 q hq
      rcases List.mem_append.mp hq with hq1 | hq1
      · exact h p2 (List.mem_cons_of_mem _ hp2) q hq1
      · have hqe : q = (k, v) := by simpa using hq1
        subst hqe
        intro hqk
        apply hk_notin
        rw [hqk]
        exact List.mem_map_of_mem Prod.fst hp2
    rw [ih (acc ++ [(k, v)]) harg hd2]
    simp

/-- `Extract` after a successful `ForeachKey` run is `extractFinish`. -/
theorem extract_foreach_ok (t : Tracer) (format : Format) (carrier : Carrier)
    (hfmt : ¬(format ≠ Format.HTTPHeaders ∧ format ≠ Format.TextMap))
    (hread : ¬(carrier.canRead = false)) (st : ExtractState)
    (hfe : foreachKey carrier.entries (ExtractState.mk 0 0 [] "" none)
      = Except.ok st) :
    t.Extract format carrier = extractFinish t format st := by
  unfold Tracer.Extract
  rw [if_neg hfmt, if_neg hread, hfe]

/-- `extractFinish` with nonzero ids and no shadow type returns the plain
real context. -/
theorem extractFinish_plain (t : Tracer) (format : Format) (st : ExtractState)
    (hnz : ¬(st.traceID = 0 ∧ st.spanID = 0)) (hsh : st.shadowType = "") :
    extractFinish t format st
      = (OTSpanContext.real (spanContext.mk st.traceID st.spanID st.baggage
          none none none RecordingType.NoRecording), none) := by
  unfold extractFinish
  rw [if_neg hnz, if_pos hsh]

/-- C1 (counterexample to the claim as stated): `Extract` lowercases every
carrier key, so the baggage key `"A"` comes back as `"a"` — the round trip
through Inject does not return a baggage map equal to the original's. -/
theorem c1_counterexample :
    ctxBaggage (Tracer.Extract (Tracer.mk false none false) Format.TextMap
      (Carrier.mk true true (injectOutput (Tracer.mk false none false)
        (OTSpanContext.real (spanContext.mk 1 2 [("A", "x")] none none none
          RecordingType.NoRecording)) Format.TextMap (Carrier.mk true true [])))).1
      ≠ [("A", "x")] := by decide

/-- C1 (amended): for every real span context with no shadow tracer
attached, 64-bit ids not both zero, and baggage whose keys are pairwise
distinct and unchanged by lowercasing, `Extract` applied to the carrier
produced by `Inject` on a text-map carrier yields a real context whose
TraceID, SpanID and baggage map equal the original's. -/
theorem c1_roundtrip_amended (t t2 : Tracer) (sc : spanContext) (format : Format)
    (carrier : Carrier)
    (hfmt : format = Format.HTTPHeaders ∨ format = Format.TextMap)
    (hw : carrier.canWrite = true)
    (hshadow : sc.shadowTr = none)
    (ht64 : sc.traceID < 2 ^ 64) (hs64 : sc.spanID < 2 ^ 64)
    (hnz : ¬(sc.traceID = 0 ∧ sc.spanID = 0))
    (hlow : ∀ p ∈ sc.baggage, strToLower p.1 = p.1)
    (hnodup : (sc.baggage.map Prod.fst).Nodup) :
    Tracer.Extract t2 format (Carrier.mk true true
        (injectOutput t (OTSpanContext.real sc) format carrier))
      = (OTSpanContext.real (spanContext.mk sc.traceID sc.spanID sc.baggage
          none none none RecordingType.NoRecording), none) := by
  have hInj0 : Tracer.Inject t (OTSpanContext.real sc) format carrier
      = Except.ok ((fieldNameTraceID, formatUint16 sc.traceID)
        :: (fieldNameSpanID, formatUint16 sc.spanID)
        :: sc.baggage.map (fun p => (prefixBaggage ++ p.1, p.2))) := by
    simp only [Tracer.Inject, isNoopCtx, Bool.false_eq_true, if_false]
    rw [if_neg (supportedFormat_cond format hfmt),
      if_neg (show ¬(carrier.canWrite = false) by simp [hw]), hshadow]
  have hinj : injectOutput t (OTSpanContext.real sc) format carrier
      = (fieldNameTraceID, formatUint16 sc.traceID)
        :: (fieldNameSpanID, formatUint16 sc.spanID)
        :: sc.baggage.map (fun p => (prefixBaggage ++ p.1, p.2)) := by
    unfold injectOutput
    rw [hInj0]
  have hfe : foreachKey ((fieldNameTraceID, formatUint16 sc.traceID)
        :: (fieldNameSpanID, formatUint16 sc.spanID)
        :: sc.baggage.map (fun p => (prefixBaggage ++ p.1, p.2)))
        (ExtractState.mk 0 0 [] "" none)
      = Except.ok (ExtractState.mk sc.traceID sc.spanID sc.baggage "" none) := by
    rw [foreachKey_cons _ _ _ _ _
      (extractHandler_traceid _ _ _ (parseUint16_formatUint16 _ ht64))]
    rw [foreachKey_cons _ _ _ _ _
      (extractHandler_spanid _ _ _ (parseUint16_formatUint16 _ hs64))]
    rw [foreachKey_baggage sc.baggage _ hlow]
    rw [foldl_mapSet_append sc.baggage []
      (fun p _ q hq => absurd hq (List.not_mem_nil q)) hnodup]
    rfl
  rw [extract_foreach_ok t2 format _ (supportedFormat_cond format hfmt)
    (by simp) _ (by rw [show (Carrier.mk true true
      (injectOutput t (OTSpanContext.real sc) format carrier)).entries
      = injectOutput t (OTSpanContext.real sc) format carrier from rfl, hinj, hfe])]
  exact extractFinish_plain t2 format _ hnz rfl

/-- Witness for C1 (amended) at a concrete context with lowercase baggage. -/
theorem c1_roundtrip_amended_witness :
    Tracer.Extract (Tracer.mk false none false) Format.TextMap
      (Carrier.mk true true (injectOutput (Tracer.mk false none false)
        (OTSpanContext.real (spanContext.mk 3 4 [("sb", "1")] none none none
          RecordingType.NoRecording)) Format.TextMap (Carrier.mk true true [])))
      = (OTSpanContext.real (spanContext.mk 3 4 [("sb", "1")] none none none
          RecordingType.NoRecording), none) :=
  c1_roundtrip_amended (Tracer.mk false none false) (Tracer.mk false none false)
    (spanContext.mk 3 4 [("sb", "1")] none none none RecordingType.NoRecording)
    Format.TextMap (Carrier.mk true true []) (Or.inr rfl) rfl rfl
    (by norm_num) (by norm_num) (by decide) (by decide) (by decide)

end Tracing
